import Mathlib

/-!
Verification of the terminal display controller of the kickstart installer.

The definitions below are a shallow embedding of src/src/header.py. Python
strings are embedded as lists of characters, writes to the real terminal as a
trace of emitted fragments, and the mutable objects FixedHeader,
TerminalState and OutputInterceptor as one record that is threaded
explicitly. Terminal-size queries are passed in as parameters. Each
operation returns the updated record together with the list of fragments it
wrote to the real output stream, in order.
-/

/-- Python strings are embedded as lists of characters. -/
abbrev Str := List Char

/-- The escape character, \x1b. -/
def ESC : Char := Char.ofNat 27

/-- Embeds SAVE_CURSOR from header.py. -/
def SAVE_CURSOR : Str := ESC :: "[s".toList

/-- Embeds RESTORE_CURSOR from header.py. -/
def RESTORE_CURSOR : Str := ESC :: "[u".toList

/-- Embeds CLEAR_SCREEN from header.py. -/
def CLEAR_SCREEN : Str := ESC :: "[2J".toList

/-- Embeds MOVE_HOME from header.py. -/
def MOVE_HOME : Str := ESC :: "[H".toList

/-- Embeds CLEAR_LINE from header.py. -/
def CLEAR_LINE : Str := ESC :: "[2K".toList

/-- Embeds HIDE_CURSOR from header.py. -/
def HIDE_CURSOR : Str := ESC :: "[?25l".toList

/-- Embeds SHOW_CURSOR from header.py. -/
def SHOW_CURSOR : Str := ESC :: "[?25h".toList

/-- Modelled from the spec: the accent color escape code imported from the
missing module src/ansi_codes.py (the single accent color, green), and its
closing reset code, as standard ANSI SGR sequences. -/
def green : Str := ESC :: "[32m".toList

/-- Modelled from the spec: the SGR reset code from src/ansi_codes.py. -/
def reset : Str := ESC :: "[0m".toList

/-- Embeds move_to from header.py: the CSI row;col H sequence. -/
def move_to (row : Nat) (col : Nat) : Str :=
  ESC :: ("[" ++ toString row ++ ";" ++ toString col ++ "H").toList

/-- Embeds set_scroll_region from header.py: the CSI top;bottom r sequence. -/
def set_scroll_region (top : Nat) (bottom : Nat) : Str :=
  ESC :: ("[" ++ toString top ++ ";" ++ toString bottom ++ "r").toList

/-- Embeds reset_scroll_region from header.py. -/
def reset_scroll_region : Str := ESC :: "[r".toList

/-- Python slice text[:k] for an arbitrary integer k: a non-negative k takes
the first k characters, a negative k counts from the end, clamping at the
empty string. -/
def pyslice_to (s : Str) (k : Int) : Str :=
  if 0 ≤ k then s.take k.toNat else s.take (s.length - (-k).toNat)

/-- Embeds truncate_to_fit from header.py:
text if len(text) <= max_width - 1 else text[: max_width - 4] + "...". -/
def truncate_to_fit (text : Str) (max_width : Int) : Str :=
  if (text.length : Int) ≤ max_width - 1 then text
  else pyslice_to text (max_width - 4) ++ "...".toList

/-- Python str.ljust(w): pad on the right with spaces to width w, returning
the string unchanged when it is already at least w long. -/
def ljust (s : Str) (w : Int) : Str :=
  s ++ List.replicate (w.toNat - s.length) ' '

/-- Embeds count_newlines from header.py. -/
def count_newlines (text : Str) : Nat := text.count '\n'

/-- Embeds get_new_cursor_position from header.py. -/
def get_new_cursor_position (text : Str) (current_line : Nat) (current_col : Nat) :
    Nat × Nat :=
  if '\n' ∈ text then (current_line + count_newlines text, 1)
  else (current_line, current_col + text.length)

/-- Embeds format_status_line from header.py. -/
def format_status_line (text : Str) (terminal_width : Int) : Str :=
  green ++ ljust (truncate_to_fit text terminal_width) terminal_width ++ reset

/-- Python text.rstrip with a newline argument: drop all trailing newline
characters. -/
def rstrip_newlines (text : Str) : Str :=
  (text.reverse.dropWhile (fun c => c = '\n')).reverse

/-- Python text.endswith with a newline argument, as a Bool. -/
def ends_with_newline (text : Str) : Bool := text.getLast? == some '\n'

/-- Embeds the TerminalState dataclass of header.py. -/
structure TerminalState where
  cursor_col : Nat := 1
  cursor_line : Nat := 0
  terminal_height : Nat := 0
  terminal_width : Nat := 0
deriving DecidableEq, Repr

/-- Embeds the combined mutable state of FixedHeader and its
OutputInterceptor. interceptor_installed models whether sys.stdout currently
is the interceptor; sigwinch_saved models whether a previous SIGWINCH
handler is stored; last_write_ended_newline lives on the interceptor object
in the source and starts as True when the interceptor is created. -/
structure FixedHeader where
  state : TerminalState := {}
  is_redrawing : Bool := false
  enabled : Bool
  header_height : Nat := 0
  header_lines : List Str := []
  initialized : Bool := false
  status_position : Nat := 0
  status_text : Str := []
  step_output : List Str := []
  interceptor_installed : Bool := false
  sigwinch_saved : Bool := false
  last_write_ended_newline : Bool := true
deriving DecidableEq, Repr

/-- Embeds FixedHeader.__init__: enabled is sys.stdout.isatty(). -/
def mkFixedHeader (isatty : Bool) : FixedHeader := { enabled := isatty }

/-- Embeds OutputInterceptor._append_to_step_output. -/
def append_to_step_output (h : FixedHeader) (text : Str) : FixedHeader :=
  let h1 :=
    if text = ['\n'] ∧ h.last_write_ended_newline = true then
      { h with step_output := h.step_output ++ [[]] }
    else if text ≠ ['\n'] then
      { h with step_output := h.step_output ++ [rstrip_newlines text] }
    else h
  { h1 with last_write_ended_newline := ends_with_newline text }

/-- Embeds OutputInterceptor._update_cursor_tracking. -/
def update_cursor_tracking (h : FixedHeader) (text : Str) : FixedHeader :=
  let p := get_new_cursor_position text h.state.cursor_line h.state.cursor_col
  { h with state := { h.state with cursor_line := p.1, cursor_col := p.2 } }

/-- Embeds OutputInterceptor.write on the success path of the forward to the
real stream: the forwarded text is the single trace element, and the capture
happens only when the controller is enabled, not redrawing, and the text is
non-empty (Python truthiness of text). -/
def interceptor_write (h : FixedHeader) (text : Str) : FixedHeader × List Str :=
  if h.enabled = true ∧ h.is_redrawing = false ∧ text ≠ [] then
    (update_cursor_tracking (append_to_step_output h text) text, [text])
  else (h, [text])

/-- A write to sys.stdout as it currently stands: the interceptor when it is
installed, the real stream otherwise. -/
def stdout_write (h : FixedHeader) (text : Str) : FixedHeader × List Str :=
  if h.interceptor_installed = true then interceptor_write h text
  else (h, [text])

/-- Embeds FixedHeader._is_terminal_too_small. -/
def is_terminal_too_small (h : FixedHeader) : Bool :=
  h.state.terminal_height < h.header_height + 3

/-- Embeds FixedHeader._reset_cursor_state. -/
def reset_cursor_state (h : FixedHeader) : FixedHeader :=
  { h with state := { h.state with cursor_line := 0, cursor_col := 1 } }

/-- Embeds FixedHeader._update_terminal_size; the OS-reported dimensions are
passed in as parameters. -/
def update_terminal_size (h : FixedHeader) (height : Nat) (width : Nat) :
    FixedHeader :=
  { h with state :=
    { h.state with terminal_height := height, terminal_width := width } }

/-- Embeds FixedHeader._has_terminal_size_changed. -/
def has_terminal_size_changed (h : FixedHeader) (last_height : Nat)
    (last_width : Nat) : Bool :=
  last_height != h.state.terminal_height || last_width != h.state.terminal_width

/-- Embeds FixedHeader.set_header_content; the terminal size queried by
_update_terminal_size is passed in as parameters. -/
def set_header_content (h : FixedHeader) (lines : List Str)
    (status_position : Nat) (height : Nat) (width : Nat) : FixedHeader :=
  if h.enabled = false then h
  else
    update_terminal_size
      { h with header_lines := lines, status_position := status_position,
               header_height := lines.length }
      height width

/-- Embeds FixedHeader._write_header_lines: one stdout write of
line + newline per header line. -/
def write_header_lines : FixedHeader → List Str → FixedHeader × List Str
  | h, [] => (h, [])
  | h, l :: ls =>
    let r1 := stdout_write h (l ++ ['\n'])
    let r2 := write_header_lines r1.1 ls
    (r2.1, r1.2 ++ r2.2)

/-- Embeds FixedHeader._write_step_output_lines: every line but the last goes
through print (which writes the line and then a newline), the last line is
written without a trailing newline and flushed. -/
def write_step_output_lines : FixedHeader → List Str → FixedHeader × List Str
  | h, [] => (h, [])
  | h, [l] => stdout_write h l
  | h, l :: l2 :: ls =>
    let r1 := stdout_write h l
    let r2 := stdout_write r1.1 ['\n']
    let r3 := write_step_output_lines r2.1 (l2 :: ls)
    (r3.1, r1.2 ++ r2.2 ++ r3.2)

/-- Embeds FixedHeader._should_restore_cursor_position. -/
def should_restore_cursor_position (h : FixedHeader) : Bool :=
  h.state.cursor_line > 0 || h.state.cursor_col > 1

/-- Embeds FixedHeader._restore_cursor_to_position. -/
def restore_cursor_to_position (h : FixedHeader) (scroll_start : Nat) :
    FixedHeader × List Str :=
  if should_restore_cursor_position h = true then
    stdout_write h (move_to (scroll_start + h.state.cursor_line) h.state.cursor_col)
  else (h, [])

/-- Embeds FixedHeader._write_status_if_present. -/
def write_status_if_present (h : FixedHeader) : FixedHeader × List Str :=
  if h.status_text ≠ [] then
    let r1 := stdout_write h SAVE_CURSOR
    let r2 := stdout_write r1.1 (move_to r1.1.status_position 1)
    let r3 := stdout_write r2.1
      (format_status_line r2.1.status_text (r2.1.state.terminal_width : Int))
    let r4 := stdout_write r3.1 RESTORE_CURSOR
    (r4.1, r1.2 ++ r2.2 ++ r3.2 ++ r4.2)
  else (h, [])

/-- Embeds FixedHeader._redraw_header. -/
def redraw_header (h : FixedHeader) : FixedHeader × List Str :=
  if h.enabled = false ∨ h.initialized = false ∨ is_terminal_too_small h = true then
    (h, [])
  else
    let h0 := { h with is_redrawing := true }
    let r1 := stdout_write h0 reset_scroll_region
    let r2 := stdout_write r1.1 CLEAR_SCREEN
    let r3 := stdout_write r2.1 MOVE_HOME
    let r4 := write_header_lines r3.1 r3.1.header_lines
    let scroll_start := r4.1.header_height + 1
    let r5 := stdout_write r4.1 (set_scroll_region scroll_start r4.1.state.terminal_height)
    let r6 := stdout_write r5.1 (move_to scroll_start 1)
    let h7 := reset_cursor_state r6.1
    let r8 := write_step_output_lines h7 h7.step_output
    let r9 := restore_cursor_to_position r8.1 scroll_start
    let r10 := write_status_if_present r9.1
    ({ r10.1 with is_redrawing := false },
     r1.2 ++ r2.2 ++ r3.2 ++ r4.2 ++ r5.2 ++ r6.2 ++ r8.2 ++ r9.2 ++ r10.2)

/-- Embeds FixedHeader._handle_resize; the re-queried OS dimensions are
passed in as parameters. -/
def handle_resize (h : FixedHeader) (height : Nat) (width : Nat) :
    FixedHeader × List Str :=
  if h.enabled = false ∨ h.initialized = false then (h, [])
  else
    let last_height := h.state.terminal_height
    let last_width := h.state.terminal_width
    let h1 := update_terminal_size h height width
    if has_terminal_size_changed h1 last_height last_width = true then
      redraw_header h1
    else (h1, [])

/-- Embeds FixedHeader._setup_terminal_display. -/
def setup_terminal_display (h : FixedHeader) : FixedHeader × List Str :=
  let r1 := stdout_write h CLEAR_SCREEN
  let r2 := stdout_write r1.1 HIDE_CURSOR
  let r3 := stdout_write r2.1 MOVE_HOME
  let r4 := write_header_lines r3.1 r3.1.header_lines
  (r4.1, r1.2 ++ r2.2 ++ r3.2 ++ r4.2)

/-- Embeds FixedHeader._setup_scroll_region. -/
def setup_scroll_region (h : FixedHeader) : FixedHeader × List Str :=
  let scroll_start := h.header_height + 1
  let r1 := stdout_write h (set_scroll_region scroll_start h.state.terminal_height)
  let r2 := stdout_write r1.1 (move_to scroll_start 1)
  let r3 := stdout_write r2.1 SHOW_CURSOR
  (r3.1, r1.2 ++ r2.2 ++ r3.2)

/-- Embeds FixedHeader.initialize; the terminal size queried by
_update_terminal_size is passed in as parameters. Installing the signal
handler records the previous one; installing the interceptor replaces
sys.stdout with a freshly created OutputInterceptor, whose
last_write_ended_newline starts as True. -/
def init_header (h : FixedHeader) (height : Nat) (width : Nat) :
    FixedHeader × List Str :=
  if h.enabled = false ∨ h.initialized = true then (h, [])
  else
    let h1 := update_terminal_size h height width
    if is_terminal_too_small h1 = true then (h1, [])
    else
      let r2 := setup_terminal_display h1
      let r3 := setup_scroll_region r2.1
      let h4 := { r3.1 with initialized := true }
      let h5 := { h4 with sigwinch_saved := true }
      let h6 := { h5 with interceptor_installed := true,
                          last_write_ended_newline := true }
      (h6, r2.2 ++ r3.2)

/-- Embeds FixedHeader.clear_step_output. -/
def clear_step_output (h : FixedHeader) : FixedHeader :=
  reset_cursor_state { h with step_output := [] }

/-- Embeds FixedHeader._write_status_update. -/
def write_status_update (h : FixedHeader) (message : Str) :
    FixedHeader × List Str :=
  let r1 := stdout_write h SAVE_CURSOR
  let r2 := stdout_write r1.1 (move_to r1.1.status_position 1)
  let r3 := stdout_write r2.1 CLEAR_LINE
  let r4 := stdout_write r3.1
    (format_status_line message (r3.1.state.terminal_width : Int))
  let r5 := stdout_write r4.1 RESTORE_CURSOR
  (r5.1, r1.2 ++ r2.2 ++ r3.2 ++ r4.2 ++ r5.2)

/-- Embeds FixedHeader.update_status. When disabled, print writes the
accent-styled message and then the line end to sys.stdout. -/
def update_status (h : FixedHeader) (message : Str) : FixedHeader × List Str :=
  if h.enabled = false then
    let r1 := stdout_write h (green ++ message ++ reset)
    let r2 := stdout_write r1.1 ['\n']
    (r2.1, r1.2 ++ r2.2)
  else if h.initialized = false then (h, [])
  else
    let h1 := { h with status_text := message, is_redrawing := true }
    let r2 := write_status_update h1 message
    ({ r2.1 with is_redrawing := false }, r2.2)

/-- Embeds FixedHeader._cleanup_signal_handler. -/
def cleanup_signal_handler (h : FixedHeader) : FixedHeader :=
  if h.sigwinch_saved = true then { h with sigwinch_saved := false } else h

/-- Embeds FixedHeader._cleanup_output_interceptor: restores the real stream
as sys.stdout and drops the interceptor. -/
def cleanup_output_interceptor (h : FixedHeader) : FixedHeader :=
  if h.interceptor_installed = true then { h with interceptor_installed := false }
  else h

/-- Embeds FixedHeader._cleanup_status_line. -/
def cleanup_status_line (h : FixedHeader) : FixedHeader × List Str :=
  let r1 := stdout_write h reset_scroll_region
  let r2 := stdout_write r1.1 SAVE_CURSOR
  let r3 := stdout_write r2.1 (move_to r2.1.status_position 1)
  let r4 := stdout_write r3.1 CLEAR_LINE
  let r5 := stdout_write r4.1 RESTORE_CURSOR
  (r5.1, r1.2 ++ r2.2 ++ r3.2 ++ r4.2 ++ r5.2)

/-- Embeds FixedHeader.cleanup. -/
def cleanup (h : FixedHeader) : FixedHeader × List Str :=
  if h.enabled = false ∨ h.initialized = false then (h, [])
  else
    let h1 := cleanup_signal_handler h
    let h2 := cleanup_output_interceptor h1
    let r3 := cleanup_status_line h2
    ({ r3.1 with initialized := false }, r3.2)

/-- Embeds OutputInterceptor.write with a fallible forward to the real
stream: line 81 of header.py forwards text to original_stdout before any
state mutation, so when that write raises (fail = true) the exception
propagates, nothing reaches the trace and the state is returned as it was;
on success the capture proceeds exactly as in interceptor_write and the
returned value is the forwarded length. -/
def interceptor_write_fallible (h : FixedHeader) (text : Str) (fail : Bool) :
    FixedHeader × List Str × Except Unit Nat :=
  if fail = true then (h, [], Except.error ())
  else
    let r := interceptor_write h text
    (r.1, r.2, Except.ok text.length)

/-- A sequence of interceptor writes, as a step produces output fragment by
fragment. -/
def write_many : FixedHeader → List Str → FixedHeader × List Str
  | h, [] => (h, [])
  | h, t :: ts =>
    let r1 := interceptor_write h t
    let r2 := write_many r1.1 ts
    (r2.1, r1.2 ++ r2.2)

/-! ### Concrete states used by witnesses and counterexamples -/

/-- An enabled controller fresh from construction on a TTY. -/
def hEnabled : FixedHeader := mkFixedHeader true

/-- An enabled controller in the middle of a redraw. -/
def hRedrawing : FixedHeader := { mkFixedHeader true with is_redrawing := true }

/-- An Active controller: 2-line header, status row 3, 24 by 80 terminal,
interceptor and signal handler installed. -/
def hActive : FixedHeader :=
  { enabled := true, initialized := true, interceptor_installed := true,
    sigwinch_saved := true, header_height := 2,
    header_lines := ["void".toList, "====".toList],
    status_position := 3, status_text := [],
    step_output := ["ok".toList],
    state := { cursor_col := 1, cursor_line := 1,
               terminal_height := 24, terminal_width := 80 },
    last_write_ended_newline := true }

/-- The state reached by constructing the controller on a TTY, setting a
2-line header with status row 3 on a 24 by 80 terminal, initializing,
capturing one write of "ok", and cleaning up: an Uninitialized controller
whose step-output log is non-empty. -/
def hAfterCleanup : FixedHeader :=
  (cleanup (interceptor_write
    (init_header
      (set_header_content (mkFixedHeader true)
        ["void".toList, "====".toList] 3 24 80) 24 80).1
    "ok".toList).1).1

/-- The controller right after set_header_content with a 2-line header,
status row 3, on a 24 by 80 terminal. -/
def hC6 : FixedHeader :=
  set_header_content (mkFixedHeader true) ["void".toList, "====".toList] 3 24 80

/-! ### Helper lemmas -/

theorem interceptor_write_redraw (h : FixedHeader) (t : Str)
    (hr : h.is_redrawing = true) : interceptor_write h t = (h, [t]) := by
  simp [interceptor_write, hr]

theorem stdout_write_redraw (h : FixedHeader) (t : Str)
    (hr : h.is_redrawing = true) : stdout_write h t = (h, [t]) := by
  unfold stdout_write
  split
  · exact interceptor_write_redraw h t hr
  · rfl

theorem stdout_write_disabled (h : FixedHeader) (t : Str)
    (he : h.enabled = false) : stdout_write h t = (h, [t]) := by
  unfold stdout_write
  split
  · simp [interceptor_write, he]
  · rfl

theorem write_header_lines_redraw (ls : List Str) :
    ∀ h : FixedHeader, h.is_redrawing = true →
      write_header_lines h ls = (h, ls.map (fun l => l ++ ['\n'])) := by
  induction ls with
  | nil => intro h _; rfl
  | cons l ls ih =>
    intro h hr
    simp [write_header_lines, stdout_write_redraw _ _ hr, ih h hr]

theorem write_step_output_lines_redraw_fst :
    ∀ (ls : List Str) (h : FixedHeader), h.is_redrawing = true →
      (write_step_output_lines h ls).1 = h := by
  intro ls
  induction ls with
  | nil => intro h _; rfl
  | cons l ls ih =>
    intro h hr
    cases ls with
    | nil => simp [write_step_output_lines, stdout_write_redraw _ _ hr]
    | cons l2 ls2 =>
      simp [write_step_output_lines, stdout_write_redraw _ _ hr, ih _ hr]

theorem restore_cursor_to_position_fst (h : FixedHeader) (s : Nat)
    (hr : h.is_redrawing = true) : (restore_cursor_to_position h s).1 = h := by
  unfold restore_cursor_to_position
  split
  · simp [stdout_write_redraw _ _ hr]
  · rfl

theorem write_status_if_present_fst (h : FixedHeader)
    (hr : h.is_redrawing = true) : (write_status_if_present h).1 = h := by
  unfold write_status_if_present
  split
  · simp [stdout_write_redraw _ _ hr]
  · rfl

theorem write_status_update_fst (h : FixedHeader) (m : Str)
    (hr : h.is_redrawing = true) : (write_status_update h m).1 = h := by
  simp [write_status_update, stdout_write_redraw _ _ hr]

theorem redraw_header_fst (h : FixedHeader) :
    (redraw_header h).1 = h ∨
      (redraw_header h).1 = { reset_cursor_state h with is_redrawing := false } := by
  unfold redraw_header
  split
  · exact Or.inl rfl
  · refine Or.inr ?_
    have hr : ({ h with is_redrawing := true } : FixedHeader).is_redrawing = true := rfl
    simp only [stdout_write_redraw _ _ hr, write_header_lines_redraw _ _ hr]
    have hr7 : (reset_cursor_state { h with is_redrawing := true }).is_redrawing = true := rfl
    simp only [write_step_output_lines_redraw_fst _ _ hr7,
      restore_cursor_to_position_fst _ _ hr7, write_status_if_present_fst _ hr7]
    rfl

theorem append_to_step_output_state (h : FixedHeader) (t : Str) :
    (append_to_step_output h t).state = h.state
    ∧ (append_to_step_output h t).enabled = h.enabled
    ∧ (append_to_step_output h t).is_redrawing = h.is_redrawing := by
  refine ⟨?_, ?_, ?_⟩ <;>
    (simp only [append_to_step_output]; split_ifs <;> rfl)

theorem interceptor_write_flags (h : FixedHeader) (t : Str) :
    (interceptor_write h t).1.enabled = h.enabled
    ∧ (interceptor_write h t).1.is_redrawing = h.is_redrawing := by
  unfold interceptor_write
  split
  · exact ⟨(append_to_step_output_state h t).2.1,
      (append_to_step_output_state h t).2.2⟩
  · exact ⟨rfl, rfl⟩

theorem interceptor_write_cursor (h : FixedHeader) (t : Str)
    (he : h.enabled = true) (hr : h.is_redrawing = false) (hne : t ≠ []) :
    (interceptor_write h t).1.state.cursor_line
      = (get_new_cursor_position t h.state.cursor_line h.state.cursor_col).1
    ∧ (interceptor_write h t).1.state.cursor_col
      = (get_new_cursor_position t h.state.cursor_line h.state.cursor_col).2 := by
  have hs := (append_to_step_output_state h t).1
  simp [interceptor_write, he, hr, hne, update_cursor_tracking, hs]

theorem update_status_preserves (h : FixedHeader) (m : Str) :
    (update_status h m).1.step_output = h.step_output
    ∧ (update_status h m).1.state.cursor_line = h.state.cursor_line
    ∧ (update_status h m).1.state.cursor_col = h.state.cursor_col := by
  unfold update_status
  split
  · rename_i he
    simp [stdout_write_disabled _ _ he]
  · split
    · exact ⟨rfl, rfl, rfl⟩
    · have hr : ({ h with status_text := m, is_redrawing := true } :
          FixedHeader).is_redrawing = true := rfl
      simp [write_status_update_fst _ _ hr]

theorem write_many_append_fst (ts us : List Str) :
    ∀ h : FixedHeader,
      (write_many h (ts ++ us)).1 = (write_many (write_many h ts).1 us).1 := by
  induction ts with
  | nil => intro h; rfl
  | cons t ts ih => intro h; simp [write_many, ih]

theorem write_many_no_newline (ts : List Str) :
    ∀ h : FixedHeader, h.enabled = true → h.is_redrawing = false →
      (∀ s ∈ ts, '\n' ∉ s) →
      (write_many h ts).1.state.cursor_line = h.state.cursor_line
      ∧ (write_many h ts).1.enabled = true
      ∧ (write_many h ts).1.is_redrawing = false := by
  induction ts with
  | nil => intro h he hr _; exact ⟨rfl, he, hr⟩
  | cons t ts ih =>
    intro h he hr hts
    have hflags := interceptor_write_flags h t
    have hline : (interceptor_write h t).1.state.cursor_line
        = h.state.cursor_line := by
      by_cases hne : t = []
      · subst hne; simp [interceptor_write]
      · have hc := (interceptor_write_cursor h t he hr hne).1
        have hnn : '\n' ∉ t := hts t (List.mem_cons_self t ts)
        rw [hc]
        simp [get_new_cursor_position, hnn]
    have ihr := ih (interceptor_write h t).1
      (by rw [hflags.1, he]) (by rw [hflags.2, hr])
      (fun s hs => hts s (List.mem_cons_of_mem t hs))
    refine ⟨?_, ihr.2⟩
    simp only [write_many]
    rw [ihr.1, hline]

/-! ### Claims -/

/-- Claim C1: whenever the Redrawing flag is true, a call to the
interceptor's write forwards the text but appends nothing to the
step-output log and changes no tracked state at all; consequently a full
redraw leaves the step-output log unchanged, and a status update leaves
both the step-output log and the tracked cursor line and column
unchanged. -/
theorem c1_redrawing_guard :
    (∀ (h : FixedHeader) (t : Str), h.is_redrawing = true →
        interceptor_write h t = (h, [t]))
    ∧ (∀ h : FixedHeader, (redraw_header h).1.step_output = h.step_output)
    ∧ (∀ (h : FixedHeader) (m : Str),
        (update_status h m).1.step_output = h.step_output
        ∧ (update_status h m).1.state.cursor_line = h.state.cursor_line
        ∧ (update_status h m).1.state.cursor_col = h.state.cursor_col) := by
  refine ⟨interceptor_write_redraw, ?_, update_status_preserves⟩
  intro h
  rcases redraw_header_fst h with hE | hE <;> simp [hE, reset_cursor_state]

/-- Witness for C1 at a concrete redrawing state and a concrete text. -/
theorem c1_redrawing_guard_witness :
    interceptor_write hRedrawing ['x'] = (hRedrawing, [['x']]) :=
  c1_redrawing_guard.1 hRedrawing ['x'] rfl

/-- Claim C7: while enabled and not redrawing, a write containing at least
one newline advances the tracked cursor line by the newline count and
resets the column to 1; a newline-free write advances the column by the
text length and keeps the line; hence any sequence of newline-free writes
followed by one write containing newlines advances the line by exactly that
write's newline count and resets the column to 1. -/
theorem c7_cursor_tracking :
    (∀ (h : FixedHeader) (t : Str), h.enabled = true → h.is_redrawing = false →
      ('\n' ∈ t →
          (interceptor_write h t).1.state.cursor_line
            = h.state.cursor_line + count_newlines t
          ∧ (interceptor_write h t).1.state.cursor_col = 1)
      ∧ ('\n' ∉ t →
          (interceptor_write h t).1.state.cursor_col
            = h.state.cursor_col + t.length
          ∧ (interceptor_write h t).1.state.cursor_line = h.state.cursor_line))
    ∧ (∀ (h : FixedHeader) (ts : List Str) (t : Str),
        h.enabled = true → h.is_redrawing = false →
        (∀ s ∈ ts, '\n' ∉ s) → '\n' ∈ t →
        (write_many h (ts ++ [t])).1.state.cursor_line
          = h.state.cursor_line + count_newlines t
        ∧ (write_many h (ts ++ [t])).1.state.cursor_col = 1) := by
  constructor
  · intro h t he hr
    constructor
    · intro hmem
      have hne : t ≠ [] := by rintro rfl; exact (List.not_mem_nil _) hmem
      have hc := interceptor_write_cursor h t he hr hne
      rw [hc.1, hc.2]
      simp [get_new_cursor_position, hmem]
    · intro hnn
      by_cases hne : t = []
      · subst hne; simp [interceptor_write]
      · have hc := interceptor_write_cursor h t he hr hne
        rw [hc.1, hc.2]
        simp [get_new_cursor_position, hnn]
  · intro h ts t he hr hts hmem
    have hpre := write_many_no_newline ts h he hr hts
    have hsplit := write_many_append_fst ts [t] h
    have hone : (write_many (write_many h ts).1 [t]).1
        = (interceptor_write (write_many h ts).1 t).1 := by
      simp [write_many]
    have hne : t ≠ [] := by rintro rfl; exact (List.not_mem_nil _) hmem
    have hc := interceptor_write_cursor (write_many h ts).1 t
      hpre.2.1 hpre.2.2 hne
    rw [hsplit, hone, hc.1, hc.2]
    simp [get_new_cursor_position, hmem, hpre.1]

/-- Witness for C7: three newline-free writes then a write with two
newlines, from a fresh enabled controller. -/
theorem c7_cursor_tracking_witness :
    (write_many hEnabled ([['a'], ['b', 'c'], []] ++ [['d', '\n', '\n']])).1.state.cursor_line
      = hEnabled.state.cursor_line + count_newlines ['d', '\n', '\n']
    ∧ (write_many hEnabled ([['a'], ['b', 'c'], []] ++ [['d', '\n', '\n']])).1.state.cursor_col
      = 1 :=
  c7_cursor_tracking.2 hEnabled [['a'], ['b', 'c'], []] ['d', '\n', '\n']
    rfl rfl (by decide) (by decide)

/-- Claim C8: a resize signal delivered while Active that re-queries
dimensions equal to the stored ones triggers no redraw: the handler emits
nothing and returns the state unchanged. -/
theorem c8_noop_resize : ∀ (h : FixedHeader) (height width : Nat),
    h.enabled = true → h.initialized = true →
    height = h.state.terminal_height → width = h.state.terminal_width →
    handle_resize h height width = (h, []) := by
  intro h height width he hi hH hW
  subst hH; subst hW
  have h1 : update_terminal_size h h.state.terminal_height
      h.state.terminal_width = h := rfl
  simp [handle_resize, he, hi, h1, has_terminal_size_changed]

/-- Witness for C8 at a concrete Active state and its stored 24 by 80
dimensions. -/
theorem c8_noop_resize_witness : handle_resize hActive 24 80 = (hActive, []) :=
  c8_noop_resize hActive 24 80 rfl rfl rfl rfl

/-- Claim C10: when the forward to the real stream raises, the exception
propagates, nothing is emitted and the state is returned exactly as it was
before the call; when the forward succeeds the call coincides with the
ordinary interceptor write and returns the forwarded length. -/
theorem c10_write_failure_atomicity : ∀ (h : FixedHeader) (t : Str),
    interceptor_write_fallible h t true = (h, [], Except.error ())
    ∧ interceptor_write_fallible h t false
      = ((interceptor_write h t).1, (interceptor_write h t).2,
         Except.ok t.length) := by
  intro h t
  exact ⟨rfl, rfl⟩

theorem init_header_cases (h : FixedHeader) (height width : Nat)
    (he : h.enabled = true) (hi : h.initialized = false) :
    (h.header_height + 3 ≤ height →
        (init_header h height width).1.initialized = true)
    ∧ (height < h.header_height + 3 →
        init_header h height width = (update_terminal_size h height width, [])) := by
  constructor
  · intro hge
    have hts : is_terminal_too_small (update_terminal_size h height width)
        = false := by
      simp [is_terminal_too_small, update_terminal_size,
        decide_eq_false_iff_not]
      omega
    simp [init_header, he, hi, hts]
  · intro hlt
    have hts : is_terminal_too_small (update_terminal_size h height width)
        = true := by
      simp [is_terminal_too_small, update_terminal_size]
      omega
    simp [init_header, he, hi, hts]

/-- Claim C3: with the controller enabled and not yet initialized, after a
header of h lines is set, initialize activates the controller exactly when
the reported terminal height is at least h + 3, and otherwise leaves it
uninitialized and emits nothing. -/
theorem c3_initialize_activation :
    ∀ (h : FixedHeader) (lines : List Str) (sp hq wq height width : Nat),
      h.enabled = true → h.initialized = false →
      ((lines.length + 3 ≤ height →
          (init_header (set_header_content h lines sp hq wq)
            height width).1.initialized = true)
       ∧ (height < lines.length + 3 →
          (init_header (set_header_content h lines sp hq wq)
            height width).1.initialized = false
          ∧ (init_header (set_header_content h lines sp hq wq)
              height width).2 = [])) := by
  intro h lines sp hq wq height width he hi
  have hs1 : (set_header_content h lines sp hq wq).enabled = true := by
    simp [set_header_content, update_terminal_size, he]
  have hs2 : (set_header_content h lines sp hq wq).initialized = false := by
    simp [set_header_content, update_terminal_size, he, hi]
  have hs3 : (set_header_content h lines sp hq wq).header_height
      = lines.length := by
    simp [set_header_content, update_terminal_size, he]
  obtain ⟨hA, hB⟩ := init_header_cases (set_header_content h lines sp hq wq)
    height width hs1 hs2
  constructor
  · intro hge
    exact hA (by rw [hs3]; exact hge)
  · intro hlt
    have hB2 := hB (by rw [hs3]; exact hlt)
    rw [hB2]
    exact ⟨by simp [update_terminal_size, hs2], rfl⟩

/-- Witness for C3: a 2-line header on a 24 by 80 terminal activates. -/
theorem c3_initialize_activation_witness :
    (init_header (set_header_content hEnabled [['a'], ['b']] 3 0 0)
      24 80).1.initialized = true :=
  (c3_initialize_activation hEnabled [['a'], ['b']] 3 0 0 24 80 rfl rfl).1
    (by decide)

/-- Counterexample for C4 as frozen: a write of the empty string while
enabled and not redrawing appends nothing to the step-output log, whereas
the claim says the empty string (with trailing newlines stripped) is
appended. -/
theorem c4_empty_write_counterexample :
    hEnabled.enabled = true ∧ hEnabled.is_redrawing = false
    ∧ (interceptor_write hEnabled []).1.step_output
        ≠ hEnabled.step_output ++ [rstrip_newlines []] := by decide

/-- Claim C4 as amended: for every write processed while enabled and not
redrawing, a text of exactly one newline after a line-ending write appends
an empty line; every non-empty text other than a single newline is appended
with its trailing newlines stripped; the empty string is excluded — it
appends nothing and changes nothing. -/
theorem c4_step_output_append :
    ∀ (h : FixedHeader) (t : Str), h.enabled = true → h.is_redrawing = false →
      ((t = ['\n'] ∧ h.last_write_ended_newline = true →
          (interceptor_write h t).1.step_output = h.step_output ++ [[]])
       ∧ (t ≠ ['\n'] ∧ t ≠ [] →
          (interceptor_write h t).1.step_output
            = h.step_output ++ [rstrip_newlines t])
       ∧ (t = [] → interceptor_write h t = (h, [t]))) := by
  intro h t he hr
  refine ⟨?_, ?_, ?_⟩
  · rintro ⟨rfl, hlast⟩
    simp [interceptor_write, he, hr, update_cursor_tracking,
      append_to_step_output, hlast]
  · rintro ⟨hne1, hne2⟩
    simp [interceptor_write, he, hr, hne2, update_cursor_tracking,
      append_to_step_output, hne1]
  · rintro rfl
    simp [interceptor_write]

/-- Witness for C4 at a concrete write ending in a newline. -/
theorem c4_step_output_append_witness :
    (interceptor_write hEnabled ['h', 'i', '\n']).1.step_output
      = hEnabled.step_output ++ [rstrip_newlines ['h', 'i', '\n']] :=
  (c4_step_output_append hEnabled ['h', 'i', '\n'] rfl rfl).2.1 (by decide)

/-- Counterexample for C5 as frozen: an Uninitialized controller reached by
initialize, one captured write, and cleanup still holds a non-empty
step-output log, and clear_step_output is not a no-op on it. -/
theorem c5_unguarded_clear_counterexample :
    hAfterCleanup.enabled = true ∧ hAfterCleanup.initialized = false
    ∧ clear_step_output hAfterCleanup ≠ hAfterCleanup := by decide

theorem cleanup_not_initialized (h : FixedHeader) (hi : h.initialized = false) :
    cleanup h = (h, []) := by
  unfold cleanup
  rw [if_pos (Or.inr hi)]

theorem cleanup_fst_initialized (h : FixedHeader) (he : h.enabled = true)
    (hi : h.initialized = true) : (cleanup h).1.initialized = false := by
  unfold cleanup
  rw [if_neg (by simp [he, hi])]

/-- Claim C5 as amended: while Disabled, initialize and cleanup are no-ops
emitting nothing, and updateStatus leaves the controller state unchanged
but prints the accent-styled message; while enabled but Uninitialized,
updateStatus and cleanup are no-ops emitting nothing; clearStepOutput is
unguarded and always empties the log and resets the cursor to the origin;
a cleanup immediately after a successful cleanup emits nothing and leaves
the controller Uninitialized. -/
theorem c5_lifecycle_noops :
    (∀ (h : FixedHeader) (height width : Nat), h.enabled = false →
        init_header h height width = (h, []))
    ∧ (∀ h : FixedHeader, h.enabled = false → cleanup h = (h, []))
    ∧ (∀ (h : FixedHeader) (m : Str), h.enabled = false →
        (update_status h m).1 = h
        ∧ (update_status h m).2 = [green ++ m ++ reset, ['\n']])
    ∧ (∀ (h : FixedHeader) (m : Str), h.enabled = true → h.initialized = false →
        update_status h m = (h, []))
    ∧ (∀ h : FixedHeader, h.initialized = false → cleanup h = (h, []))
    ∧ (∀ h : FixedHeader,
        clear_step_output h
          = { h with step_output := [],
                     state := { h.state with cursor_line := 0, cursor_col := 1 } })
    ∧ (∀ h : FixedHeader, h.enabled = true → h.initialized = true →
        cleanup (cleanup h).1 = ((cleanup h).1, [])
        ∧ (cleanup h).1.initialized = false) := by
  refine ⟨?_, ?_, ?_, ?_, ?_, ?_, ?_⟩
  · intro h height width he
    simp [init_header, he]
  · intro h he
    simp [cleanup, he]
  · intro h m he
    constructor <;> simp [update_status, he, stdout_write_disabled _ _ he]
  · intro h m he hi
    simp [update_status, he, hi]
  · intro h hi
    exact cleanup_not_initialized h hi
  · intro h
    rfl
  · intro h he hi
    have h1 := cleanup_fst_initialized h he hi
    exact ⟨cleanup_not_initialized _ h1, h1⟩

/-- Witness for C5 at concrete states: a disabled controller and an Active
one. -/
theorem c5_lifecycle_noops_witness :
    init_header (mkFixedHeader false) 24 80 = (mkFixedHeader false, [])
    ∧ cleanup (cleanup hActive).1 = ((cleanup hActive).1, []) :=
  ⟨c5_lifecycle_noops.1 (mkFixedHeader false) 24 80 rfl,
   (c5_lifecycle_noops.2.2.2.2.2.2 hActive rfl rfl).1⟩

theorem truncate_to_fit_length_le (t : Str) (w : Int) (hw : 4 ≤ w) :
    (truncate_to_fit t w).length ≤ w.toNat := by
  unfold truncate_to_fit
  split
  · rename_i hle
    omega
  · rename_i hgt
    have h4 : (0:Int) ≤ w - 4 := by omega
    simp [pyslice_to, h4]
    omega

/-- Counterexample for C9 as frozen: at width 3 the truncation yields five
characters, so the padded payload between the color codes is not exactly the
requested width. -/
theorem c9_payload_counterexample :
    truncate_to_fit "abc".toList 3 = "ab...".toList
    ∧ ljust (truncate_to_fit "abc".toList 3) 3 = "ab...".toList
    ∧ ("ab...".toList).length ≠ 3 := by decide

/-- Claim C9 as amended: for every text and every width of at least 4
columns, the status formatter wraps the truncated, left-justified text in
the accent color, the visible payload between the color codes is exactly
width characters, and truncation returns the text unchanged when its length
is at most width - 1 and otherwise the first width - 4 characters followed
by a three-character ellipsis. -/
theorem c9_status_format :
    ∀ (t : Str) (w : Int), 4 ≤ w →
      format_status_line t w
        = green ++ ljust (truncate_to_fit t w) w ++ reset
      ∧ (ljust (truncate_to_fit t w) w).length = w.toNat
      ∧ ((t.length : Int) ≤ w - 1 → truncate_to_fit t w = t)
      ∧ (w - 1 < (t.length : Int) →
          truncate_to_fit t w = t.take (w.toNat - 4) ++ "...".toList) := by
  intro t w hw
  refine ⟨rfl, ?_, ?_, ?_⟩
  · have hlen := truncate_to_fit_length_le t w hw
    simp [ljust]
    omega
  · intro hle
    simp [truncate_to_fit, hle]
  · intro hlt
    have hnle : ¬((t.length : Int) ≤ w - 1) := by omega
    have h4 : (0:Int) ≤ w - 4 := by omega
    have hn : (w - 4).toNat = w.toNat - 4 := by omega
    simp [truncate_to_fit, hnle, pyslice_to, h4, hn]

/-- Witness for C9 at a concrete message and width 80. -/
theorem c9_status_format_witness :
    (ljust (truncate_to_fit "Step 1/5".toList 80) 80).length
      = (80:Int).toNat :=
  (c9_status_format "Step 1/5".toList 80 (by decide)).2.1

/-- Claim C2, evaluated at the failing input: an Active controller with a
2-line header, stored 24 by 80 dimensions, step output consisting of "ok"
and tracked cursor at line 1, column 1 (not the scroll-region origin). A
resize to 30 by 100 redraws, but the emitted trace contains no move-to for
row scrollStart + 1 = 4: the redraw resets the tracked position to the
origin before the restore check, which therefore never fires, and the
tracked cursor ends at line 0, column 1. -/
theorem c2_restore_never_emitted :
    hActive.state.cursor_line = 1 ∧ hActive.state.cursor_col = 1
    ∧ (handle_resize hActive 30 100).2
      = [reset_scroll_region, CLEAR_SCREEN, MOVE_HOME,
         "void".toList ++ ['\n'], "====".toList ++ ['\n'],
         set_scroll_region 3 30, move_to 3 1, "ok".toList]
    ∧ move_to 4 1 ∉ (handle_resize hActive 30 100).2
    ∧ (handle_resize hActive 30 100).1.state.cursor_line = 0
    ∧ (handle_resize hActive 30 100).1.state.cursor_col = 1 := by decide

/-- Counterexample for C6 as frozen: with a 2-line header, status row 3 and
a 24 by 80 terminal, initialize never emits a scroll-region sequence for
rows 4 through 24. -/
theorem c6_region_counterexample :
    set_scroll_region 4 24 ∉ (init_header hC6 24 80).2 := by decide

/-- Claim C6 as amended: in the 2-line-header, status-row-3, 24 by 80
scenario, initialize emits the set-scroll-region sequence for rows 3
through 24 — the region starts at header_height + 1, the row immediately
below the header, and ends at the terminal's last row. -/
theorem c6_region_rows_3_to_24 :
    (init_header hC6 24 80).2
      = [CLEAR_SCREEN, HIDE_CURSOR, MOVE_HOME,
         "void".toList ++ ['\n'], "====".toList ++ ['\n'],
         set_scroll_region 3 24, move_to 3 1, SHOW_CURSOR]
    ∧ set_scroll_region 3 24 ∈ (init_header hC6 24 80).2
    ∧ hC6.header_height + 1 = 3 := by decide
